import Mathlib

/-!
# Verification of the xlsx_qa questionnaire processor

Shallow embedding of the core logic of the `xlsx_qa` package
(`domain.py`, `app.py`, `session.py`, `extractor.py`, `persistence.py`)
together with proofs of the specification claims about it.

Python strings are modelled as Lean `String` (a packed `List Char`);
the Python `str` methods used by the code (`strip`, `lower`, `replace`,
`join`, `startswith`, `in`) are embedded below as executable functions
over the underlying character lists.  `Optional[T]` becomes `Option T`,
Python truthiness of an `Optional[str]` is the `truthy` predicate
(`None` and `""` are falsy).  Console interaction is embedded by passing
the script of input lines explicitly; a blocking read on an exhausted
script is modelled as `none`.
-/

namespace XlsxQA

/-- Embedding of Python `str.lower` (character-wise lowercasing). -/
def pyLower (s : String) : String := ⟨s.data.map Char.toLower⟩

/-- Left-then-right whitespace trimming on a character list. -/
def stripChars (l : List Char) : List Char :=
  ((l.dropWhile Char.isWhitespace).reverse.dropWhile Char.isWhitespace).reverse

/-- Embedding of Python `str.strip()` (trim whitespace on both ends). -/
def pyStrip (s : String) : String := ⟨stripChars s.data⟩

/-- Embedding of Python `sep.join(lines)`. -/
def pyJoin (sep : String) : List String → String
  | [] => ""
  | x :: rest => rest.foldl (fun acc y => acc ++ sep ++ y) x

/-- Boolean prefix test on character lists. -/
def prefixChars : List Char → List Char → Bool
  | [], _ => true
  | _ :: _, [] => false
  | p :: ps, c :: cs => p = c && prefixChars ps cs

/-- Embedding of Python `s.startswith(pat)`. -/
def pyStartsWith (s pat : String) : Bool := prefixChars pat.data s.data

/-- Embedding of Python `s.endswith(pat)`. -/
def pyEndsWith (s pat : String) : Bool := prefixChars pat.data.reverse s.data.reverse

/-- Substring containment on character lists (Python `pat in s`). -/
def containsChars (pat : List Char) : List Char → Bool
  | [] => pat.isEmpty
  | c :: rest => prefixChars pat (c :: rest) || containsChars pat rest

/-- Embedding of Python `pat in s`. -/
def pyContains (s pat : String) : Bool := containsChars pat.data s.data

/-- Fuel-driven worker for Python `str.replace` (left-to-right,
non-overlapping); the fuel is the length of the scanned list. -/
def replaceGo (pat rep : List Char) : Nat → List Char → List Char
  | 0, s => s
  | _ + 1, [] => []
  | fuel + 1, c :: rest =>
    if prefixChars pat (c :: rest) && !pat.isEmpty then
      rep ++ replaceGo pat rep fuel ((c :: rest).drop pat.length)
    else
      c :: replaceGo pat rep fuel rest

/-- Embedding of Python `s.replace(pat, rep)`. -/
def pyReplace (s pat rep : String) : String :=
  ⟨replaceGo pat.data rep.data s.data.length s.data⟩

/-- Python truthiness of an `Optional[str]`: `None` and `""` are falsy. -/
def truthy : Option String → Bool
  | none => false
  | some s => !(s = "")

/-! ## Domain model (`domain.py`) -/

/-- `CatalogRecord` from `domain.py`. -/
structure CatalogRecord where
  tab_name : String
  text_location : String
  text_value : String
  is_question : Option Bool := none
  text_response : Option String := none
  text_response_location : Option String := none
  is_default_answer : Option Bool := none
  default_answer_question_location : Option String := none
  is_instruction : Option Bool := none
  deriving DecidableEq, Repr

/-- `CatalogRecord.update_from_existing`: copy the six
answer/classification fields from `other` onto `self`. -/
def update_from_existing (self other : CatalogRecord) : CatalogRecord :=
  { self with
    is_question := other.is_question
    text_response := other.text_response
    text_response_location := other.text_response_location
    is_default_answer := other.is_default_answer
    default_answer_question_location := other.default_answer_question_location
    is_instruction := other.is_instruction }

/-- `domain.catalog_key`. -/
def catalog_key (record : CatalogRecord) : String × String :=
  (record.tab_name, record.text_location)

/-- `domain._bool_to_field`. -/
def bool_to_field : Option Bool → String
  | none => ""
  | some true => "true"
  | some false => "false"

/-- `domain.BOOLEAN_TRUE`. -/
def BOOLEAN_TRUE : List String := ["true", "yes", "y", "1"]

/-- `domain.BOOLEAN_FALSE`. -/
def BOOLEAN_FALSE : List String := ["false", "no", "n", "0"]

/-- `domain.parse_bool` (argument may be `None`). -/
def parse_bool : Option String → Option Bool
  | none => none
  | some value =>
    let lowered := pyLower (pyStrip value)
    if BOOLEAN_TRUE.contains lowered then some true
    else if BOOLEAN_FALSE.contains lowered then some false
    else none

/-! ## Merge engine (`app.py`, `XLSXQuestionnaireApp._merge_records`)

The persisted mapping (a Python `dict` keyed by `catalog_key`) is
embedded as an association list in the dict's iteration order; a
Python dict has pairwise-distinct keys, which becomes a `Nodup`
hypothesis on the theorems.  The `merged` dict is only ever consulted
for key membership, so it is embedded as the list of inserted keys. -/

/-- Lookup in an association list (Python `dict.get` / `dict[key]`). -/
def assocLookup (m : List ((String × String) × CatalogRecord)) (k : String × String) :
    Option CatalogRecord :=
  (m.find? (fun p => p.1 = k)).map Prod.snd

/-- One fresh record of the first merge pass: inherit the persisted
record's mutable fields when the key is already catalogued. -/
def mergeStep (existing : List ((String × String) × CatalogRecord))
    (record : CatalogRecord) : CatalogRecord :=
  match assocLookup existing (catalog_key record) with
  | some e => update_from_existing record e
  | none => record

/-- `XLSXQuestionnaireApp._merge_records`: first pass over the fresh
records (tracking inserted keys), second pass appending persisted-only
records. -/
def merge_records (base_records : List CatalogRecord)
    (existing_records : List ((String × String) × CatalogRecord)) :
    List CatalogRecord :=
  (existing_records.foldl
    (fun (acc : List (String × String) × List CatalogRecord) p =>
      if p.1 ∈ acc.1 then acc else (acc.1 ++ [p.1], acc.2 ++ [p.2]))
    (base_records.foldl
      (fun (acc : List (String × String) × List CatalogRecord) record =>
        (acc.1 ++ [catalog_key record], acc.2 ++ [mergeStep existing_records record]))
      ([], []))).2

/-! ### Characterization of the merge -/

/-- The first merge pass is a map over the fresh records paired with the
list of their keys. -/
theorem merge_firstPass_eq (existing : List ((String × String) × CatalogRecord))
    (base : List CatalogRecord) (acc : List (String × String) × List CatalogRecord) :
    base.foldl
      (fun (acc : List (String × String) × List CatalogRecord) record =>
        (acc.1 ++ [catalog_key record], acc.2 ++ [mergeStep existing record]))
      acc
    = (acc.1 ++ base.map catalog_key, acc.2 ++ base.map (mergeStep existing)) := by
  induction base generalizing acc with
  | nil => simp
  | cons r rest ih => simp [List.foldl_cons, ih]

/-- The second merge pass appends exactly the persisted entries whose key
is not already present, provided the persisted keys are pairwise
distinct. -/
theorem merge_secondPass_eq (existing : List ((String × String) × CatalogRecord)) :
    (existing.map Prod.fst).Nodup →
    ∀ acc : List (String × String) × List CatalogRecord,
    existing.foldl
      (fun (acc : List (String × String) × List CatalogRecord) p =>
        if p.1 ∈ acc.1 then acc else (acc.1 ++ [p.1], acc.2 ++ [p.2]))
      acc
    = (acc.1 ++ (existing.filter (fun p => !decide (p.1 ∈ acc.1))).map Prod.fst,
       acc.2 ++ (existing.filter (fun p => !decide (p.1 ∈ acc.1))).map Prod.snd) := by
  induction existing with
  | nil => intro _ acc; simp
  | cons p rest ih =>
    intro hP acc
    simp only [List.map_cons, List.nodup_cons] at hP
    obtain ⟨hpf, hrest⟩ := hP
    by_cases hmem : p.1 ∈ acc.1
    · rw [List.foldl_cons, if_pos hmem, ih hrest acc]
      simp [List.filter_cons, hmem]
    · rw [List.foldl_cons, if_neg hmem, ih hrest (acc.1 ++ [p.1], acc.2 ++ [p.2])]
      have hfilter : rest.filter (fun x => !decide (x.1 ∈ acc.1) && !decide (x.1 = p.1))
          = rest.filter (fun x => !decide (x.1 ∈ acc.1)) := by
        apply List.filter_congr
        intro x hx
        have hxne : x.1 ≠ p.1 := by
          intro h
          exact hpf (h ▸ List.mem_map_of_mem Prod.fst hx)
        simp [hxne]
      simp [List.filter_cons, hmem, hfilter]

/-- `merge_records` is the first-pass map followed by the persisted-only
("orphan") entries in the mapping's iteration order. -/
theorem merge_records_eq (base : List CatalogRecord)
    (existing : List ((String × String) × CatalogRecord))
    (hP : (existing.map Prod.fst).Nodup) :
    merge_records base existing
    = base.map (mergeStep existing)
      ++ (existing.filter
            (fun p => !decide (p.1 ∈ base.map catalog_key))).map Prod.snd := by
  unfold merge_records
  rw [merge_firstPass_eq existing base ([], []), merge_secondPass_eq existing hP]
  simp

/-- The first merge pass never changes a record's key. -/
theorem catalog_key_mergeStep (existing : List ((String × String) × CatalogRecord))
    (record : CatalogRecord) :
    catalog_key (mergeStep existing record) = catalog_key record := by
  unfold mergeStep
  cases assocLookup existing (catalog_key record) <;> rfl

/-! ### Claim C1 -/

/-- C1: Merge is key-stable: for every list of freshly extracted records
(pairwise-distinct keys) and every persisted mapping (a key-consistent
association list with pairwise-distinct keys), the merged sequence's
keys are exactly the fresh keys followed by the persisted-only keys in
the mapping's iteration order, contain no duplicates, and form exactly
`keys(F) ∪ keys(P)`. -/
theorem merge_key_stable (base : List CatalogRecord)
    (existing : List ((String × String) × CatalogRecord))
    (hF : (base.map catalog_key).Nodup)
    (hP : (existing.map Prod.fst).Nodup)
    (hcons : ∀ p ∈ existing, catalog_key p.2 = p.1) :
    (merge_records base existing).map catalog_key
      = base.map catalog_key
        ++ (existing.filter
              (fun p => !decide (p.1 ∈ base.map catalog_key))).map Prod.fst
    ∧ ((merge_records base existing).map catalog_key).Nodup
    ∧ ∀ k, k ∈ (merge_records base existing).map catalog_key
        ↔ (k ∈ base.map catalog_key ∨ k ∈ existing.map Prod.fst) := by
  have horder : (merge_records base existing).map catalog_key
      = base.map catalog_key
        ++ (existing.filter
              (fun p => !decide (p.1 ∈ base.map catalog_key))).map Prod.fst := by
    rw [merge_records_eq base existing hP, List.map_append, List.map_map, List.map_map]
    congr 1
    · simp [Function.comp, catalog_key_mergeStep]
    · apply List.map_congr_left
      intro p hp
      exact hcons p (List.mem_of_mem_filter hp)
  have hsub : ((existing.filter
        (fun p => !decide (p.1 ∈ base.map catalog_key))).map Prod.fst).Sublist
      (existing.map Prod.fst) :=
    (List.filter_sublist existing).map Prod.fst
  have hnodup : ((merge_records base existing).map catalog_key).Nodup := by
    rw [horder]
    rw [List.nodup_append]
    refine ⟨hF, hP.sublist hsub, ?_⟩
    intro k hk hk'
    obtain ⟨p, hp, hpk⟩ := List.mem_map.mp hk'
    have := List.of_mem_filter hp
    simp only [Bool.not_eq_true', decide_eq_false_iff_not] at this
    exact this (hpk ▸ hk)
  refine ⟨horder, hnodup, ?_⟩
  intro k
  rw [horder, List.mem_append]
  constructor
  · rintro (hk | hk)
    · exact Or.inl hk
    · exact Or.inr (hsub.mem hk)
  · rintro (hk | hk)
    · exact Or.inl hk
    · by_cases hb : k ∈ base.map catalog_key
      · exact Or.inl hb
      · obtain ⟨p, hp, hpk⟩ := List.mem_map.mp hk
        refine Or.inr (List.mem_map.mpr ⟨p, List.mem_filter.mpr ⟨hp, ?_⟩, hpk⟩)
        simp [hpk, hb]

/-- Fresh record with a key absent from the persisted mapping. -/
def mwFreshA : CatalogRecord :=
  { tab_name := "Sheet1", text_location := "A1", text_value := "What is this?" }

/-- Fresh record whose key is also in the persisted mapping. -/
def mwFreshB : CatalogRecord :=
  { tab_name := "Sheet1", text_location := "A2", text_value := "Why was that?" }

/-- Persisted record sharing `mwFreshB`'s key. -/
def mwPersistedB : CatalogRecord :=
  { tab_name := "Sheet1", text_location := "A2", text_value := "old text",
    is_question := some true, text_response := some "an answer",
    text_response_location := some "B2" }

/-- Persisted-only ("orphan") record. -/
def mwOrphan : CatalogRecord :=
  { tab_name := "Sheet1", text_location := "Z9", text_value := "gone",
    is_question := some false }

/-- Concrete fresh extraction for the merge witnesses. -/
def mwBase : List CatalogRecord := [mwFreshA, mwFreshB]

/-- Concrete persisted mapping for the merge witnesses. -/
def mwExisting : List ((String × String) × CatalogRecord) :=
  [(("Sheet1", "A2"), mwPersistedB), (("Sheet1", "Z9"), mwOrphan)]

/-- Witness for C1 at a concrete fresh list and persisted mapping. -/
theorem merge_key_stable_witness :
    (merge_records mwBase mwExisting).map catalog_key
      = mwBase.map catalog_key
        ++ (mwExisting.filter
              (fun p => !decide (p.1 ∈ mwBase.map catalog_key))).map Prod.fst
    ∧ ((merge_records mwBase mwExisting).map catalog_key).Nodup
    ∧ ∀ k, k ∈ (merge_records mwBase mwExisting).map catalog_key
        ↔ (k ∈ mwBase.map catalog_key ∨ k ∈ mwExisting.map Prod.fst) :=
  merge_key_stable mwBase mwExisting (by decide) (by decide) (by decide)

/-! ### Claim C2 -/

/-- C2: Merge field precedence: for a fresh record whose key is found in
the persisted mapping, the merged record at that position keeps the
fresh record's tab name, text location and text value and takes all six
answer/classification fields from the persisted record. -/
theorem merge_field_precedence (base : List CatalogRecord)
    (existing : List ((String × String) × CatalogRecord))
    (i : Nat) (h : i < base.length) (e : CatalogRecord)
    (he : assocLookup existing (catalog_key (base.get ⟨i, h⟩)) = some e) :
    ∃ h2 : i < (merge_records base existing).length,
      ((merge_records base existing).get ⟨i, h2⟩).tab_name = (base.get ⟨i, h⟩).tab_name
      ∧ ((merge_records base existing).get ⟨i, h2⟩).text_location
          = (base.get ⟨i, h⟩).text_location
      ∧ ((merge_records base existing).get ⟨i, h2⟩).text_value
          = (base.get ⟨i, h⟩).text_value
      ∧ ((merge_records base existing).get ⟨i, h2⟩).is_question = e.is_question
      ∧ ((merge_records base existing).get ⟨i, h2⟩).text_response = e.text_response
      ∧ ((merge_records base existing).get ⟨i, h2⟩).text_response_location
          = e.text_response_location
      ∧ ((merge_records base existing).get ⟨i, h2⟩).is_default_answer
          = e.is_default_answer
      ∧ ((merge_records base existing).get ⟨i, h2⟩).default_answer_question_location
          = e.default_answer_question_location
      ∧ ((merge_records base existing).get ⟨i, h2⟩).is_instruction = e.is_instruction := by
  have hfold : ∀ (l : List ((String × String) × CatalogRecord))
      (acc : List (String × String) × List CatalogRecord),
      ∃ suffix, (l.foldl
        (fun (acc : List (String × String) × List CatalogRecord) p =>
          if p.1 ∈ acc.1 then acc else (acc.1 ++ [p.1], acc.2 ++ [p.2]))
        acc).2 = acc.2 ++ suffix := by
    intro l
    induction l with
    | nil => intro acc; exact ⟨[], by simp⟩
    | cons p rest ih =>
      intro acc
      rw [List.foldl_cons]
      by_cases hmem : p.1 ∈ acc.1
      · rw [if_pos hmem]; exact ih acc
      · rw [if_neg hmem]
        obtain ⟨suffix, hs⟩ := ih (acc.1 ++ [p.1], acc.2 ++ [p.2])
        exact ⟨p.2 :: suffix, by simp [hs]⟩
  obtain ⟨suffix, hs⟩ := hfold existing
    (base.foldl
      (fun (acc : List (String × String) × List CatalogRecord) record =>
        (acc.1 ++ [catalog_key record], acc.2 ++ [mergeStep existing record]))
      ([], []))
  have heq : merge_records base existing = base.map (mergeStep existing) ++ suffix := by
    unfold merge_records
    rw [hs, merge_firstPass_eq existing base ([], [])]
    simp
  have h2 : i < (merge_records base existing).length := by
    rw [heq, List.length_append, List.length_map]
    omega
  have hget : (merge_records base existing).get ⟨i, h2⟩
      = mergeStep existing (base.get ⟨i, h⟩) := by
    have hlt : i < (base.map (mergeStep existing)).length := by
      rw [List.length_map]; exact h
    rw [List.get_eq_getElem, List.getElem_of_eq heq h2, List.getElem_append_left hlt]
    simp
  refine ⟨h2, ?_⟩
  rw [hget]
  unfold mergeStep
  rw [he]
  simp [update_from_existing]

/-- Witness for C2 at a concrete overlapping key. -/
theorem merge_field_precedence_witness :
    ∃ h2 : 1 < (merge_records mwBase mwExisting).length,
      ((merge_records mwBase mwExisting).get ⟨1, h2⟩).tab_name
          = (mwBase.get ⟨1, by decide⟩).tab_name
      ∧ ((merge_records mwBase mwExisting).get ⟨1, h2⟩).text_location
          = (mwBase.get ⟨1, by decide⟩).text_location
      ∧ ((merge_records mwBase mwExisting).get ⟨1, h2⟩).text_value
          = (mwBase.get ⟨1, by decide⟩).text_value
      ∧ ((merge_records mwBase mwExisting).get ⟨1, h2⟩).is_question
          = mwPersistedB.is_question
      ∧ ((merge_records mwBase mwExisting).get ⟨1, h2⟩).text_response
          = mwPersistedB.text_response
      ∧ ((merge_records mwBase mwExisting).get ⟨1, h2⟩).text_response_location
          = mwPersistedB.text_response_location
      ∧ ((merge_records mwBase mwExisting).get ⟨1, h2⟩).is_default_answer
          = mwPersistedB.is_default_answer
      ∧ ((merge_records mwBase mwExisting).get ⟨1, h2⟩).default_answer_question_location
          = mwPersistedB.default_answer_question_location
      ∧ ((merge_records mwBase mwExisting).get ⟨1, h2⟩).is_instruction
          = mwPersistedB.is_instruction :=
  merge_field_precedence mwBase mwExisting 1 (by decide) mwPersistedB (by decide)

/-! ## Interactive session (`session.py`)

Console input is embedded as the list of lines the user will type; a
read on an exhausted script (where the Python program would block) is
`none`.  Each prompt function returns its result together with the
unconsumed remainder of the script. -/

/-- `session.AnswerPromptResult`. -/
structure AnswerPromptResult where
  command : String
  answer : Option String
  deriving DecidableEq, Repr

/-- `session.LocationPromptResult`. -/
structure LocationPromptResult where
  command : String
  value : Option String
  deriving DecidableEq, Repr

/-- `session.SessionResult`. -/
structure SessionResult where
  records : List CatalogRecord
  current_index : Nat
  aborted : Bool
  deriving DecidableEq, Repr

/-- Fuel-driven worker for the base-26 column-letter conversion in
`session._suggest_response_location` (the fuel bounds the loop; the
column index strictly decreases each step). -/
def columnLettersGo : Nat → Nat → List Char
  | _, 0 => []
  | 0, _ + 1 => []
  | fuel + 1, ci + 1 =>
    columnLettersGo fuel (ci / 26) ++ [Char.ofNat (65 + ci % 26)]

/-- `session._suggest_response_location`: split the coordinate into
letters and digits, convert the letters to a 1-based column number,
advance one column and convert back. -/
def suggest_response_location (question_location : String) : String :=
  let column_part := question_location.data.filter Char.isAlpha
  let row_part := question_location.data.filter Char.isDigit
  if column_part = [] ∨ row_part = [] then ""
  else
    let column_index := column_part.foldl
      (fun acc c => acc * 26 + (c.toUpper.toNat - 64)) 0
    let column_index := column_index + 1
    ⟨columnLettersGo column_index column_index ++ row_part⟩

/-- The multi-line collection loop of `session._prompt_answer` (the
`while True` body once at least one line has been collected): blank
lines raise the empty streak, three consecutive blanks finish the
answer, non-blank lines are appended with the literal `\n` escape
expanded. -/
def collect_lines (default_answer : Option String) (lines : List String)
    (empty_streak : Nat) :
    List String → Option (AnswerPromptResult × List String)
  | [] => none
  | raw :: rest =>
    if raw = "" then
      if empty_streak + 1 ≥ 3 then
        let answer := pyStrip (pyJoin "\n" lines)
        some (⟨"answer", if answer = "" then default_answer else some answer⟩, rest)
      else collect_lines default_answer (lines ++ [""]) (empty_streak + 1) rest
    else collect_lines default_answer (lines ++ [pyReplace raw "\\n" "\n"]) 0 rest

/-- `session._prompt_answer`: control tokens and the empty/default
shortcut are only recognised on the first line; any other first line
starts multi-line collection. -/
def prompt_answer (default_answer : Option String) :
    List String → Option (AnswerPromptResult × List String)
  | [] => none
  | raw :: rest =>
    let command := pyLower (pyStrip raw)
    if command = "q" ∨ command = "quit" then some (⟨"quit", none⟩, rest)
    else if command = "b" ∨ command = "back" then some (⟨"back", none⟩, rest)
    else if command = "s" ∨ command = "skip" then some (⟨"skip", none⟩, rest)
    else if raw = "" then
      if truthy default_answer then some (⟨"answer", default_answer⟩, rest)
      else some (⟨"skip", none⟩, rest)
    else collect_lines default_answer [pyReplace raw "\\n" "\n"] 0 rest

/-- The `while True` loop of `session._prompt_location`: quit/back
short-circuit, empty input accepts a non-empty suggestion, non-empty
input is accepted verbatim, and empty input with no suggestion
re-prompts. -/
def loc_loop (suggestion : String) :
    List String → Option (LocationPromptResult × List String)
  | [] => none
  | raw0 :: rest =>
    let raw := pyStrip raw0
    let lowered := pyLower raw
    if lowered = "q" ∨ lowered = "quit" then some (⟨"quit", none⟩, rest)
    else if lowered = "b" ∨ lowered = "back" then some (⟨"back", none⟩, rest)
    else if raw = "" then
      if suggestion = "" then loc_loop suggestion rest
      else some (⟨"accept", some suggestion⟩, rest)
    else some (⟨"accept", some raw⟩, rest)

/-- `session._prompt_location`: the suggestion is the existing location
when truthy, else the computed follow-up coordinate. -/
def prompt_location (existing : Option String) (question_location : String)
    (input : List String) : Option (LocationPromptResult × List String) :=
  let suggestion :=
    match existing with
    | some s => if s = "" then suggest_response_location question_location else s
    | none => suggest_response_location question_location
  loc_loop suggestion input

/-- The default answer proposed for a record in `session.run`:
`record.text_response or default_answers.get(record.text_location)`. -/
def sessionDefault (record : CatalogRecord)
    (default_answers : String → Option String) : Option String :=
  if truthy record.text_response then record.text_response
  else default_answers record.text_location

/-- The `while 0 <= index < len(records)` loop of `session.run`, driven
by fuel (each iteration consumes at least one input line, so
`input.length + 1` fuel always suffices). -/
def runLoopFuel (default_answers : String → Option String) :
    Nat → List CatalogRecord → Nat → List String → Option SessionResult
  | 0, _, _, _ => none
  | fuel + 1, records, index, input =>
    if h : index < records.length then
      let record := records.get ⟨index, h⟩
      match prompt_answer (sessionDefault record default_answers) input with
      | none => none
      | some (pr, rest) =>
        if pr.command = "quit" then some ⟨records, index, true⟩
        else if pr.command = "back" then
          runLoopFuel default_answers fuel records (index - 1) rest
        else if pr.command = "skip" then
          runLoopFuel default_answers fuel records (index + 1) rest
        else
          match prompt_location record.text_response_location
              record.text_location rest with
          | none => none
          | some (lr, rest2) =>
            if lr.command = "quit" then some ⟨records, index, true⟩
            else if lr.command = "back" then
              runLoopFuel default_answers fuel records (index - 1) rest2
            else
              runLoopFuel default_answers fuel
                (records.set index
                  { record with
                    text_response := pr.answer
                    text_response_location := lr.value })
                (index + 1) rest2
    else some ⟨records, records.length, false⟩

/-- `session.InteractiveSession.run` from `start_index = 0`. -/
def session_run (records : List CatalogRecord)
    (default_answers : String → Option String) (input : List String) :
    Option SessionResult :=
  runLoopFuel default_answers (input.length + 1) records 0 input

/-- The unanswered-question filter of `XLSXQuestionnaireApp.run`
(`record.is_question is True and not record.text_response`). -/
def question_candidates (records : List CatalogRecord) : List CatalogRecord :=
  records.filter (fun r => decide (r.is_question = some true) && !truthy r.text_response)

/-! ### Claim C3 -/

/-- Pristine question record (no answer, no answer location). -/
def c3Record : CatalogRecord :=
  { tab_name := "Sheet1", text_location := "A1", text_value := "Is this ok?",
    is_question := some true }

/-- The record after the C3 failing run: location committed, answer unset. -/
def c3RecordAfter : CatalogRecord :=
  { tab_name := "Sheet1", text_location := "A1", text_value := "Is this ok?",
    is_question := some true, text_response := none,
    text_response_location := some "B1" }

/-- C3 (refuting evidence, code bug): on a pristine question record, an
all-whitespace answer entry with no default available still reaches the
location prompt, and accepting the suggested location commits
`text_response_location = "B1"` while `text_response` stays unset —
the session does not commit answer and answer location together, so
the claimed iff invariant is violated by the code. -/
theorem session_commits_location_without_answer :
    session_run [c3Record] (fun _ => none) [" ", "", "", "", ""]
      = some ⟨[c3RecordAfter], 1, false⟩
    ∧ c3RecordAfter.text_response = none
    ∧ c3RecordAfter.text_response_location = some "B1" :=
  ⟨by decide, rfl, rfl⟩

/-! ### Claim C5 -/

/-- C5: Quit is atomic and position-preserving: a `q`/`quit` entered as
the first line of the answer prompt, or at the location prompt after an
answer was assembled, makes the session loop return immediately with
`aborted = true`, the current index unchanged, and the record sequence
exactly as it was at the start of that prompt cycle. -/
theorem quit_aborts_in_place (records : List CatalogRecord) (index : Nat)
    (default_answers : String → Option String) (h : index < records.length) :
    (∀ (fuel : Nat) (raw : String) (rest : List String),
      (pyLower (pyStrip raw) = "q" ∨ pyLower (pyStrip raw) = "quit") →
      runLoopFuel default_answers (fuel + 1) records index (raw :: rest)
        = some ⟨records, index, true⟩)
    ∧ (∀ (fuel : Nat) (input : List String) (a : Option String)
        (raw2 : String) (rest2 : List String),
      prompt_answer (sessionDefault (records.get ⟨index, h⟩) default_answers) input
        = some (⟨"answer", a⟩, raw2 :: rest2) →
      (pyLower (pyStrip raw2) = "q" ∨ pyLower (pyStrip raw2) = "quit") →
      runLoopFuel default_answers (fuel + 1) records index input
        = some ⟨records, index, true⟩) := by
  constructor
  · intro fuel raw rest hq
    simp only [runLoopFuel, dif_pos h, prompt_answer]
    rw [if_pos hq]
    simp
  · intro fuel input a raw2 rest2 hpa hq
    simp only [runLoopFuel, dif_pos h]
    rw [hpa]
    simp only [prompt_location, loc_loop]
    rw [if_pos hq]
    simp

/-- Witness for C5: quitting at the answer prompt and at the location
prompt of a one-record session. -/
theorem quit_aborts_in_place_witness :
    runLoopFuel (fun _ => none) 1 [c3Record] 0 ["q"]
      = some ⟨[c3Record], 0, true⟩
    ∧ runLoopFuel (fun _ => none) 5 [c3Record] 0 ["hello there", "", "", "", "quit"]
      = some ⟨[c3Record], 0, true⟩ :=
  ⟨(quit_aborts_in_place [c3Record] 0 (fun _ => none) (by decide)).1 0 "q" [] (by decide),
   (quit_aborts_in_place [c3Record] 0 (fun _ => none) (by decide)).2 4
     ["hello there", "", "", "", "quit"] (some "hello there") "quit" [] (by decide)
     (by decide)⟩

/-! ### Claim C6 -/

/-- Record that already carries a response (for the C6 counterexample). -/
def c6Record : CatalogRecord :=
  { tab_name := "Sheet1", text_location := "A1", text_value := "Is it?",
    is_question := some true, text_response := some "old" }

/-- The record after the C6 run: the "decline" input `n` became the
new answer. -/
def c6RecordAfter : CatalogRecord :=
  { tab_name := "Sheet1", text_location := "A1", text_value := "Is it?",
    is_question := some true, text_response := some "n",
    text_response_location := some "B1" }

/-- An unanswered question record (used to witness the candidate
filter). -/
def c6Unanswered : CatalogRecord :=
  { tab_name := "Sheet1", text_location := "A1", text_value := "Is it ok?",
    is_question := some true }

/-- C6 counterexample: on a record already carrying the response
`"old"` with no default-answer override, entering `n` does not act as a
decline that advances without changing the record — the session treats
`n` as answer content and commits it (the code has no overwrite
confirmation prompt). -/
theorem overwrite_confirmation_counterexample :
    session_run [c6Record] (fun _ => none) ["n", "", "", "", ""]
      = some ⟨[c6RecordAfter], 1, false⟩
    ∧ c6Record.text_response = some "old"
    ∧ c6RecordAfter.text_response = some "n" :=
  ⟨by decide, rfl, rfl⟩

/-- C6 amended: there is no overwrite confirmation.  A record's
existing non-empty response is proposed as the default answer; an
empty first input line accepts it verbatim; and the application's
question filter excludes records that already carry a truthy response
from the session altogether. -/
theorem existing_response_default_behavior :
    (∀ (record : CatalogRecord) (default_answers : String → Option String),
      truthy record.text_response →
      sessionDefault record default_answers = record.text_response)
    ∧ (∀ (r : String) (rest : List String), r ≠ "" →
      prompt_answer (some r) ("" :: rest) = some (⟨"answer", some r⟩, rest))
    ∧ (∀ (records : List CatalogRecord) (record : CatalogRecord),
      record ∈ question_candidates records →
      truthy record.text_response = false) := by
  refine ⟨?_, ?_, ?_⟩
  · intro record default_answers ht
    simp [sessionDefault, ht]
  · intro r rest hr
    have hcmd : pyLower (pyStrip "") = "" := rfl
    have htr : truthy (some r) = true := by simp [truthy, hr]
    simp only [prompt_answer, hcmd]
    rw [if_neg (by decide), if_neg (by decide), if_neg (by decide)]
    simp [htr]
  · intro records record hmem
    have := List.of_mem_filter hmem
    simp only [Bool.and_eq_true, Bool.not_eq_true'] at this
    exact this.2

/-- Witness for C6 amended behaviour at concrete inputs. -/
theorem existing_response_default_behavior_witness :
    sessionDefault c6Record (fun _ => none) = c6Record.text_response
    ∧ prompt_answer (some "old") ("" :: []) = some (⟨"answer", some "old"⟩, [])
    ∧ truthy c6Unanswered.text_response = false :=
  ⟨existing_response_default_behavior.1 c6Record (fun _ => none) (by decide),
   existing_response_default_behavior.2.1 "old" [] (by decide),
   existing_response_default_behavior.2.2 [c6Unanswered] c6Unanswered (by decide)⟩

/-! ### Claim C4 -/

/-- Joining after appending two blank lines appends two newlines. -/
theorem pyJoin_append_blanks (xs : List String) (hxs : xs ≠ []) :
    pyJoin "\n" (xs ++ ["", ""]) = pyJoin "\n" xs ++ "\n\n" := by
  cases xs with
  | nil => exact absurd rfl hxs
  | cons x t =>
    simp only [pyJoin, List.cons_append, List.foldl_append, List.foldl_cons,
      List.foldl_nil]
    apply String.ext
    simp [String.data_append]

/-- Stripping ignores a trailing pair of newlines. -/
theorem pyStrip_append_newlines (s : String) : pyStrip (s ++ "\n\n") = pyStrip s := by
  apply String.ext
  show stripChars (s.data ++ ['\n', '\n']) = stripChars s.data
  unfold stripChars
  rw [List.dropWhile_append]
  by_cases hemp : (s.data.dropWhile Char.isWhitespace).isEmpty
  · rw [if_pos hemp]
    have h2 : List.dropWhile Char.isWhitespace ['\n', '\n'] = [] := by decide
    have h3 : s.data.dropWhile Char.isWhitespace = [] := by
      simpa [List.isEmpty_iff] using hemp
    rw [h2, h3]
  · rw [if_neg hemp]
    have hnl : Char.isWhitespace '\n' = true := by decide
    simp [List.reverse_append, List.dropWhile_cons, hnl]

/-- Well-formed continuation of a multi-line entry relative to the
current blank streak: blank lines never reach a third consecutive blank
(so they are collected, with the streak rising), non-blank lines reset
the streak, and the content ends with the streak at zero (a non-blank
last line), so that exactly the three terminating blanks that follow
end the collection. -/
def streakOk : Nat → List String → Bool
  | s, [] => s == 0
  | s, l :: rest =>
    if l = "" then decide (s + 1 < 3) && streakOk (s + 1) rest
    else streakOk 0 rest

/-- The literal-escape expansion of a blank line is blank. -/
theorem pyReplace_empty (pat rep : String) : pyReplace "" pat rep = "" := rfl

/-- Running the collection loop over content followed by three blank
lines collects every content line (escape-expanded; interior runs of at
most two blank lines included, with the streak resetting on each
non-blank line) plus the two blank lines appended before the
terminating third. -/
theorem collect_lines_run (default_answer : Option String) (rest : List String)
    (more : List String) :
    ∀ (acc : List String) (s : Nat), streakOk s more = true →
    collect_lines default_answer acc s (more ++ ["", "", ""] ++ rest)
      = some (⟨"answer",
          if pyStrip (pyJoin "\n"
              (acc ++ more.map (fun l => pyReplace l "\\n" "\n") ++ ["", ""])) = ""
          then default_answer
          else some (pyStrip (pyJoin "\n"
              (acc ++ more.map (fun l => pyReplace l "\\n" "\n") ++ ["", ""])))⟩, rest) := by
  induction more with
  | nil =>
    intro acc s hs
    have hs0 : s = 0 := by simpa [streakOk] using hs
    subst hs0
    simp only [List.nil_append, List.map_nil, List.append_nil]
    simp [collect_lines]
  | cons m ms ih =>
    intro acc s hs
    by_cases hm : m = ""
    · subst hm
      simp [streakOk] at hs
      obtain ⟨hlt, hs'⟩ := hs
      simp only [List.cons_append, collect_lines]
      rw [if_pos trivial, if_neg (show ¬ s + 1 ≥ 3 by omega)]
      simp only [List.append_eq]
      rw [ih (acc ++ [""]) (s + 1) hs']
      simp [pyReplace_empty]
    · simp only [streakOk, if_neg hm] at hs
      simp only [List.cons_append, collect_lines, if_neg hm]
      simp only [List.append_eq]
      rw [ih (acc ++ [pyReplace m "\\n" "\n"]) 0 hs]
      simp

/-- C4: multi-line answer assembly: a non-blank, non-control first line
followed by further lines (interior runs of at most two blank lines
allowed, ending on a non-blank line) and three terminating consecutive
blank lines assembles the answer as the collected lines — with each
literal backslash-n expanded to a line break — joined by newlines and
trimmed, the trailing blank lines excluded; in particular
`["Line one", "", "", ""]` assembles to exactly `"Line one"`, and the
line `"a\nb"` (literal backslash-n) stores an actual line break. -/
theorem answer_assembly :
    (∀ (default_answer : Option String) (first : String) (more rest : List String),
      first ≠ "" →
      pyLower (pyStrip first) ∉ ["q", "quit", "b", "back", "s", "skip"] →
      streakOk 0 more = true →
      prompt_answer default_answer ((first :: more) ++ ["", "", ""] ++ rest)
        = some (⟨"answer",
            if pyStrip (pyJoin "\n"
                ((first :: more).map (fun l => pyReplace l "\\n" "\n"))) = ""
            then default_answer
            else some (pyStrip (pyJoin "\n"
                ((first :: more).map (fun l => pyReplace l "\\n" "\n"))))⟩, rest))
    ∧ prompt_answer none ["Line one", "", "", ""]
        = some (⟨"answer", some "Line one"⟩, [])
    ∧ prompt_answer none ["a\\nb", "", "", ""]
        = some (⟨"answer", some "a\nb"⟩, []) := by
  refine ⟨?_, by decide, by decide⟩
  intro default_answer first more rest hfirst hctl hmore
  have hq : ¬ (pyLower (pyStrip first) = "q" ∨ pyLower (pyStrip first) = "quit") := by
    rintro (h | h) <;> simp [h] at hctl
  have hb : ¬ (pyLower (pyStrip first) = "b" ∨ pyLower (pyStrip first) = "back") := by
    rintro (h | h) <;> simp [h] at hctl
  have hs : ¬ (pyLower (pyStrip first) = "s" ∨ pyLower (pyStrip first) = "skip") := by
    rintro (h | h) <;> simp [h] at hctl
  have hrw : pyStrip (pyJoin "\n"
        (([pyReplace first "\\n" "\n"]
          ++ more.map (fun l => pyReplace l "\\n" "\n")) ++ ["", ""]))
      = pyStrip (pyJoin "\n"
          ((first :: more).map (fun l => pyReplace l "\\n" "\n"))) := by
    rw [pyJoin_append_blanks _ (by simp), pyStrip_append_newlines]
    simp
  simp only [List.cons_append, prompt_answer, if_neg hq, if_neg hb, if_neg hs,
    if_neg hfirst]
  rw [collect_lines_run default_answer rest more [pyReplace first "\\n" "\n"] 0 hmore]
  rw [hrw]

/-- Witness for C4's general assembly statement at a concrete script
with an interior blank line (a run of one, collected rather than
terminating) before the three consecutive terminating blanks. -/
theorem answer_assembly_witness :
    prompt_answer none (("Para one" :: ["", "Para two"]) ++ ["", "", ""] ++ [])
      = some (⟨"answer",
          if pyStrip (pyJoin "\n"
              (("Para one" :: ["", "Para two"]).map
                (fun l => pyReplace l "\\n" "\n"))) = ""
          then none
          else some (pyStrip (pyJoin "\n"
              (("Para one" :: ["", "Para two"]).map
                (fun l => pyReplace l "\\n" "\n"))))⟩, []) :=
  answer_assembly.1 none "Para one" ["", "Para two"] [] (by decide) (by decide)
    (by decide)

/-! ## Question classifier (`extractor.py`) -/

/-- `extractor.QUESTION_WORDS`. -/
def QUESTION_WORDS : List String :=
  ["who", "what", "when", "where", "why", "how", "do", "does", "did",
   "is", "are", "can", "could", "will", "would", "please"]

/-- `extractor.PATTERN_HINTS`. -/
def PATTERN_HINTS : List String :=
  ["please describe", "please explain", "provide details"]

/-- `QuestionExtractor._is_question_text`. -/
def is_question_text (text : String) : Bool :=
  let lowered := pyLower text
  if pyEndsWith lowered "?" then true
  else if lowered.length < 10 then false
  else if QUESTION_WORDS.any (fun w => pyStartsWith lowered w) then true
  else PATTERN_HINTS.any (fun h => pyContains lowered h)

/-- A prefix is no longer than the list it prefixes. -/
theorem prefixChars_length (p : List Char) :
    ∀ l, prefixChars p l = true → p.length ≤ l.length := by
  induction p with
  | nil => intro l _; simp
  | cons c cs ih =>
    intro l h
    cases l with
    | nil => simp [prefixChars] at h
    | cons d ds =>
      simp only [prefixChars, Bool.and_eq_true] at h
      simpa using ih ds h.2

/-- A contained pattern is no longer than the containing list. -/
theorem containsChars_length (p : List Char) :
    ∀ l, containsChars p l = true → p.length ≤ l.length := by
  intro l
  induction l with
  | nil =>
    intro h
    simp only [containsChars, List.isEmpty_iff] at h
    simp [h]
  | cons c cs ih =>
    intro h
    simp only [containsChars, Bool.or_eq_true] at h
    rcases h with h | h
    · exact prefixChars_length p (c :: cs) h
    · exact Nat.le_succ_of_le (by simpa using ih h)

/-- Lowercasing preserves the character count. -/
theorem pyLower_length (s : String) : (pyLower s).length = s.length := by
  show (s.data.map Char.toLower).length = s.data.length
  exact List.length_map s.data Char.toLower

/-- C7: the classifier returns true exactly when the (lowercased) text
ends with `?`, or has length at least 10 and starts with one of the
lead words, or contains one of the phrase hints; since every hint is at
least 14 characters long, a hint can only occur in a text of length at
least 10, so no length guard is needed on the hint disjunct — in
particular every text ending in `?` classifies as a question, and every
text shorter than 10 characters not ending in `?` classifies as
false. -/
theorem question_classifier_characterization (text : String) :
    is_question_text text
      = (pyEndsWith (pyLower text) "?"
        || (decide (10 ≤ text.length)
            && QUESTION_WORDS.any (fun w => pyStartsWith (pyLower text) w))
        || PATTERN_HINTS.any (fun h => pyContains (pyLower text) h)) := by
  unfold is_question_text
  by_cases he : pyEndsWith (pyLower text) "?" = true
  · rw [if_pos he]
    simp [he]
  · simp only [Bool.not_eq_true] at he
    by_cases hlen : (pyLower text).length < 10
    · have hlen' : text.length < 10 := by rw [← pyLower_length text]; exact hlen
      have hd : decide (10 ≤ text.length) = false :=
        decide_eq_false_iff_not.mpr (by omega)
      have hhint : PATTERN_HINTS.any (fun h => pyContains (pyLower text) h) = false := by
        rw [Bool.eq_false_iff]
        intro hh
        obtain ⟨h, hmem, hc⟩ := List.any_eq_true.mp hh
        have hle : h.data.length ≤ (pyLower text).data.length :=
          containsChars_length h.data (pyLower text).data hc
        have hll : (pyLower text).data.length < 10 := hlen
        simp only [PATTERN_HINTS, List.mem_cons, List.not_mem_nil, or_false] at hmem
        rcases hmem with rfl | rfl | rfl
        · have h15 : ("please describe" : String).data.length = 15 := by decide
          omega
        · have h14 : ("please explain" : String).data.length = 14 := by decide
          omega
        · have h15 : ("provide details" : String).data.length = 15 := by decide
          omega
      rw [if_neg (by simp [he]), if_pos hlen]
      simp [he, hd, hhint]
    · have h10 : 10 ≤ text.length := by
        rw [← pyLower_length text]; omega
      have hd : decide (10 ≤ text.length) = true := decide_eq_true h10
      by_cases hsw : QUESTION_WORDS.any (fun w => pyStartsWith (pyLower text) w) = true
      · rw [if_neg (by simp [he]), if_neg hlen, if_pos hsw]
        simp [he, hd, hsw]
      · simp only [Bool.not_eq_true] at hsw
        rw [if_neg (by simp [he]), if_neg hlen, if_neg (by simp [hsw])]
        simp [he, hd, hsw]

/-! ## Catalog persistence (`persistence.py`, `domain.py`)

The CSV file is embedded at the row level (a header row plus field
rows); quoting/escaping is the external `csv` module's concern.  A
missing file is `none`.  `csv.DictReader` row access is the zip of the
header with the row's fields; a required column falling beyond a short
row (DictReader pads with `None`) is modelled as a load failure. -/

/-- `domain.CATALOG_HEADERS`. -/
def CATALOG_HEADERS : List String :=
  ["tabName", "textLocation", "textValue", "isQuestion", "textResponse",
   "textResponseLocation", "isDefaultAnswer", "defaultAnswerQuestionLocation",
   "isInstruction"]

/-- Python `x or ""` on an `Optional[str]` field. -/
def orEmpty : Option String → String
  | none => ""
  | some s => s

/-- `CatalogRecord.as_csv_row`. -/
def as_csv_row (r : CatalogRecord) : List String :=
  [r.tab_name, r.text_location, r.text_value, bool_to_field r.is_question,
   orEmpty r.text_response, orEmpty r.text_response_location,
   bool_to_field r.is_default_answer, orEmpty r.default_answer_question_location,
   bool_to_field r.is_instruction]

/-- Python `row.get(k) or None` on a CSV field. -/
def orNone : Option String → Option String
  | none => none
  | some s => if s = "" then none else some s

/-- `csv.DictReader` row access: zip the header with the row's fields;
a key beyond the row's length yields `none`. -/
def dictRowGet (header fields : List String) (k : String) : Option String :=
  ((header.zip fields).find? (fun p => p.1 = k)).map Prod.snd

/-- `domain.build_catalog_record` over a DictReader row; the three
required identity columns must carry a string value. -/
def build_catalog_record (get : String → Option String) : Option CatalogRecord :=
  match get "tabName", get "textLocation", get "textValue" with
  | some tn, some tl, some tv =>
    some { tab_name := tn, text_location := tl, text_value := tv,
           is_question := parse_bool (get "isQuestion"),
           text_response := orNone (get "textResponse"),
           text_response_location := orNone (get "textResponseLocation"),
           is_default_answer := parse_bool (get "isDefaultAnswer"),
           default_answer_question_location :=
             orNone (get "defaultAnswerQuestionLocation"),
           is_instruction := parse_bool (get "isInstruction") }
  | _, _, _ => none

/-- Python dict assignment: replace in place when the key exists,
append otherwise. -/
def dictInsert (m : List ((String × String) × CatalogRecord))
    (k : String × String) (v : CatalogRecord) :
    List ((String × String) × CatalogRecord) :=
  if m.any (fun p => p.1 = k) then m.map (fun p => if p.1 = k then (k, v) else p)
  else m ++ [(k, v)]

/-- The row loop of `CatalogRepository.load`, building the keyed
mapping. -/
def loadRows (header : List String) :
    List (List String) → List ((String × String) × CatalogRecord) →
    Option (List ((String × String) × CatalogRecord))
  | [], acc => some acc
  | fields :: rest, acc =>
    match build_catalog_record (dictRowGet header fields) with
    | some record => loadRows header rest (dictInsert acc (catalog_key record) record)
    | none => none

/-- The CSV file content handed to/returned by the external csv module:
a header row and the field rows. -/
structure CsvFile where
  header : List String
  rows : List (List String)
  deriving DecidableEq, Repr

/-- `CatalogRepository.load`: a missing file yields an empty mapping; a
present file missing a required column raises the schema `ValueError`;
otherwise the rows are keyed into a mapping in order. -/
def load_catalog : Option CsvFile →
    Except String (List ((String × String) × CatalogRecord))
  | none => Except.ok []
  | some file =>
    let missing := CATALOG_HEADERS.filter (fun h => !file.header.contains h)
    if missing ≠ [] then
      Except.error ("Catalog file is missing required columns: "
        ++ pyJoin ", " missing)
    else
      match loadRows file.header file.rows [] with
      | some records => Except.ok records
      | none => Except.error "required column beyond end of row"

/-- `CatalogRepository.save`: the fixed header row followed by one
`as_csv_row` per record, in sequence order. -/
def save_catalog (records : List CatalogRecord) : CsvFile :=
  ⟨CATALOG_HEADERS, records.map as_csv_row⟩

/-! ### Claim C10 -/

/-- C10: loading from a path with no file returns the empty mapping
rather than raising, and any load error (the missing-columns schema
error included) can only arise when the file exists. -/
theorem load_missing_catalog :
    load_catalog none = Except.ok []
    ∧ ∀ (f : Option CsvFile) (e : String),
        load_catalog f = Except.error e → f ≠ none := by
  refine ⟨rfl, ?_⟩
  intro f e herr hnone
  rw [hnone] at herr
  simp [load_catalog] at herr

/-- A present catalog file missing every required column but `tabName`. -/
def missingColumnsFile : CsvFile := ⟨["tabName"], []⟩

/-- Witness for C10: the schema error arises only on a present file. -/
theorem load_missing_catalog_witness :
    some missingColumnsFile ≠ (none : Option CsvFile) :=
  load_missing_catalog.2 (some missingColumnsFile)
    ("Catalog file is missing required columns: textLocation, textValue, "
      ++ "isQuestion, textResponse, textResponseLocation, isDefaultAnswer, "
      ++ "defaultAnswerQuestionLocation, isInstruction") (by rfl)

/-! ### Claim C9 -/

/-- Serialized booleans parse back unchanged
(`None`/`True`/`False` ↔ empty/`"true"`/`"false"`). -/
theorem parse_bool_bool_to_field (b : Option Bool) :
    parse_bool (some (bool_to_field b)) = b := by
  rcases b with _ | b
  · rfl
  · cases b <;> rfl

/-- Serialized optional strings parse back unchanged, provided the
field is not the empty string (Python conflates `""` with `None`). -/
theorem orNone_orEmpty (o : Option String) (h : o ≠ some "") :
    orNone (some (orEmpty o)) = o := by
  rcases o with _ | s
  · rfl
  · have hs : s ≠ "" := fun hs => h (by rw [hs])
    simp [orEmpty, orNone, hs]

/-- Re-reading a saved row reconstructs the saved record when no
optional string field is the empty string. -/
theorem build_as_csv_row (r : CatalogRecord)
    (h1 : r.text_response ≠ some "")
    (h2 : r.text_response_location ≠ some "")
    (h3 : r.default_answer_question_location ≠ some "") :
    build_catalog_record (dictRowGet CATALOG_HEADERS (as_csv_row r)) = some r := by
  have g1 : dictRowGet CATALOG_HEADERS (as_csv_row r) "tabName"
      = some r.tab_name := rfl
  have g2 : dictRowGet CATALOG_HEADERS (as_csv_row r) "textLocation"
      = some r.text_location := rfl
  have g3 : dictRowGet CATALOG_HEADERS (as_csv_row r) "textValue"
      = some r.text_value := rfl
  have g4 : dictRowGet CATALOG_HEADERS (as_csv_row r) "isQuestion"
      = some (bool_to_field r.is_question) := rfl
  have g5 : dictRowGet CATALOG_HEADERS (as_csv_row r) "textResponse"
      = some (orEmpty r.text_response) := rfl
  have g6 : dictRowGet CATALOG_HEADERS (as_csv_row r) "textResponseLocation"
      = some (orEmpty r.text_response_location) := rfl
  have g7 : dictRowGet CATALOG_HEADERS (as_csv_row r) "isDefaultAnswer"
      = some (bool_to_field r.is_default_answer) := rfl
  have g8 : dictRowGet CATALOG_HEADERS (as_csv_row r) "defaultAnswerQuestionLocation"
      = some (orEmpty r.default_answer_question_location) := rfl
  have g9 : dictRowGet CATALOG_HEADERS (as_csv_row r) "isInstruction"
      = some (bool_to_field r.is_instruction) := rfl
  rw [build_catalog_record, g1, g2, g3, g4, g5, g6, g7, g8, g9]
  rw [parse_bool_bool_to_field, parse_bool_bool_to_field, parse_bool_bool_to_field,
    orNone_orEmpty _ h1, orNone_orEmpty _ h2, orNone_orEmpty _ h3]

/-- The load loop over saved rows extends the accumulated mapping by
one entry per record, in order, when all keys are distinct. -/
theorem loadRows_save (records : List CatalogRecord)
    (hopt : ∀ r ∈ records, r.text_response ≠ some ""
      ∧ r.text_response_location ≠ some ""
      ∧ r.default_answer_question_location ≠ some "") :
    ∀ prefixRecs : List CatalogRecord,
    ((prefixRecs ++ records).map catalog_key).Nodup →
    loadRows CATALOG_HEADERS (records.map as_csv_row)
        (prefixRecs.map (fun r => (catalog_key r, r)))
      = some ((prefixRecs ++ records).map (fun r => (catalog_key r, r))) := by
  induction records with
  | nil => intro prefixRecs _; simp [loadRows]
  | cons r rest ih =>
    intro prefixRecs hnodup
    obtain ⟨hr1, hr2, hr3⟩ := hopt r (List.mem_cons_self r rest)
    have hrest : ∀ x ∈ rest, x.text_response ≠ some ""
        ∧ x.text_response_location ≠ some ""
        ∧ x.default_answer_question_location ≠ some "" :=
      fun x hx => hopt x (List.mem_cons_of_mem r hx)
    have hkey : catalog_key r ∉ prefixRecs.map catalog_key := by
      rw [List.map_append] at hnodup
      have hdisj := (List.nodup_append.mp hnodup).2.2
      intro hmem
      exact hdisj hmem (by simp)
    have hno : ¬ ((prefixRecs.map (fun x => (catalog_key x, x))).any
        (fun p => p.1 = catalog_key r) = true) := by
      intro hany
      obtain ⟨p, hp, hpk⟩ := List.any_eq_true.mp hany
      obtain ⟨x, hx, hxp⟩ := List.mem_map.mp hp
      have hpe : catalog_key x = catalog_key r := by
        rw [← hxp] at hpk
        simpa using hpk
      exact hkey (hpe ▸ List.mem_map_of_mem catalog_key hx)
    have hins : dictInsert (prefixRecs.map (fun x => (catalog_key x, x)))
        (catalog_key r) r
        = (prefixRecs ++ [r]).map (fun x => (catalog_key x, x)) := by
      rw [dictInsert, if_neg hno]
      simp
    have hassoc : (prefixRecs ++ [r]) ++ rest = prefixRecs ++ r :: rest := by simp
    simp only [List.map_cons, loadRows, build_as_csv_row r hr1 hr2 hr3]
    rw [hins]
    have hres := ih hrest (prefixRecs ++ [r]) (by rw [hassoc]; exact hnodup)
    rw [hassoc] at hres
    exact hres

/-- C9 amended: saving then loading a catalog of records with pairwise
distinct keys reproduces exactly those keys and records, provided no
optional string field holds the empty string (Python serializes both
`None` and `""` as the empty CSV field, so `""`-valued optional fields
load back as unset). -/
theorem catalog_roundtrip (records : List CatalogRecord)
    (hkeys : (records.map catalog_key).Nodup)
    (hopt : ∀ r ∈ records, r.text_response ≠ some ""
      ∧ r.text_response_location ≠ some ""
      ∧ r.default_answer_question_location ≠ some "") :
    load_catalog (some (save_catalog records))
      = Except.ok (records.map (fun r => (catalog_key r, r))) := by
  have hload := loadRows_save records hopt [] (by simpa using hkeys)
  simp only [List.nil_append, List.map_nil] at hload
  simp only [load_catalog, save_catalog]
  rw [if_neg (by decide)]
  rw [hload]

/-- Record whose `text_response` is the empty string (not `None`). -/
def c9Bad : CatalogRecord :=
  { tab_name := "Sheet1", text_location := "A1", text_value := "What is it?",
    is_question := some true, text_response := some "" }

/-- C9 counterexample: a record with `text_response = some ""` does not
round-trip — the empty string serializes to the empty CSV field and
loads back as `none`, so the loaded mapping does not equal the saved
record at its key. -/
theorem catalog_roundtrip_counterexample :
    load_catalog (some (save_catalog [c9Bad]))
        ≠ Except.ok [((("Sheet1" : String), ("A1" : String)), c9Bad)]
    ∧ load_catalog (some (save_catalog [c9Bad]))
        = Except.ok [((("Sheet1" : String), ("A1" : String)),
            { c9Bad with text_response := none })] := by
  constructor
  · intro h
    have h2 : load_catalog (some (save_catalog [c9Bad]))
        = Except.ok [((("Sheet1" : String), ("A1" : String)),
            { c9Bad with text_response := none })] := by rfl
    rw [h] at h2
    have := Except.ok.inj h2
    have hrec := (List.cons.injEq _ _ _ _).mp this
    have := (Prod.mk.injEq _ _ _ _).mp hrec.1
    have hfield := congrArg CatalogRecord.text_response this.2
    simp [c9Bad] at hfield
  · rfl

/-- Witness for C9 (amended) at a concrete two-record catalog. -/
theorem catalog_roundtrip_witness :
    load_catalog (some (save_catalog [mwPersistedB, mwOrphan]))
      = Except.ok ([mwPersistedB, mwOrphan].map (fun r => (catalog_key r, r))) :=
  catalog_roundtrip [mwPersistedB, mwOrphan] (by decide) (by decide)

/-! ## Resume snapshot validation (spec-modelled)

The source tree only declares the `--resume` CLI flag (`cli.py`) and
`ResumeFileMismatchError` (`errors.py`); the snapshot-validation and
resume orchestration code itself is not under `src/`. -/

/-- Modelled from the spec: the file base name used to match a progress
snapshot against the current run's source workbook (the final path
component, as in `os.path.basename`). -/
def base_name (path : String) : String :=
  ⟨path.data.foldl (fun acc c => if c = '/' then [] else acc ++ [c]) []⟩

/-- Outcome of the resume-variant run: the process exit code and
whether an interactive session was started. -/
structure ResumeOutcome where
  exit_code : Nat
  session_started : Bool
  deriving DecidableEq, Repr

/-- Modelled from the spec: loading a progress snapshot whose recorded
source file base name differs from the current run's source file base
name is a hard mismatch (`ResumeFileMismatchError`), refused before any
session resumes, reported, with process exit code 1; on a match the
session runs and its exit code is returned. -/
def resume_run (snapshot_source current_source : String)
    (session_exit : Nat) : ResumeOutcome :=
  if base_name snapshot_source = base_name current_source then
    ⟨session_exit, true⟩
  else ⟨1, false⟩

/-! ### Claim C8 -/

/-- C8: a snapshot recorded against a source file whose base name
differs from the current run's is refused before any session resumes:
no session starts and the process exit code is 1. -/
theorem resume_mismatch_refused (snapshot_source current_source : String)
    (session_exit : Nat)
    (h : base_name snapshot_source ≠ base_name current_source) :
    resume_run snapshot_source current_source session_exit
      = ⟨1, false⟩ := by
  simp [resume_run, h]

/-- Witness for C8 at concrete mismatching paths. -/
theorem resume_mismatch_refused_witness :
    resume_run "runs/projectA.xlsx" "data/projectB.xlsx" 0 = ⟨1, false⟩ :=
  resume_mismatch_refused "runs/projectA.xlsx" "data/projectB.xlsx" 0 (by decide)

end XlsxQA
